import Mathlib

/-!
# VSHelper.h : rational scaling, format predicates and saturating narrowing

Shallow embedding of the inline helpers of `include/VSHelper.h`.

* `int64_t` values are mathematical integers in the range `[INT64_MIN, INT64_MAX]`
  (`isInt64`); a 64-bit multiplication stores the product reduced modulo `2^64`
  into that range (`wrap64`).
* `int` is 32 bits wide (`INT_MIN`, `INT_MAX`), and the cast `(int)i` reduces modulo
  `2^32` into that range (`wrap32`).
* `muldivRational` works in place through two pointers and is declared to return
  `int`.  The embedding passes the pointees by value and returns the two
  cells after the call together with the returned status.  The body of the C
  function consists of the two compound multiplications only and ends without a
  `return` statement, so the status component is `none` on every input.
* `isConstantFormat` and `isSameFormat` read a `VSVideoInfo` through a pointer and
  return the `int` value of a chain of `&&`, which is `1` or `0`; a C truth value
  is true when it is non-zero.
-/

namespace VSHelper

/-- Least value of `int64_t`. -/
def INT64_MIN : Int := -9223372036854775808

/-- Greatest value of `int64_t`. -/
def INT64_MAX : Int := 9223372036854775807

/-- Greatest value of `int` (`int` is 32 bits wide). -/
def INT_MAX : Int := 2147483647

/-- Least value of `int` (`int` is 32 bits wide). -/
def INT_MIN : Int := -2147483648

/-- The integer `x` is representable as an `int64_t`. -/
def isInt64 (x : Int) : Prop := INT64_MIN ≤ x ∧ x ≤ INT64_MAX

instance (x : Int) : Decidable (isInt64 x) := by
  unfold isInt64; exact inferInstance

/-- Two's-complement reduction of an integer into the `int64_t` range. -/
def wrap64 (x : Int) : Int :=
  (x + 9223372036854775808) % 18446744073709551616 - 9223372036854775808

/-- Two's-complement reduction of an integer into the `int` range: the cast `(int)i`. -/
def wrap32 (x : Int) : Int :=
  (x + 2147483648) % 4294967296 - 2147483648

/-- What a call of `muldivRational` leaves behind: the cells `*num` and `*den`
after the call, and the returned status when a `return` statement was executed. -/
structure MulDivResult where
  num : Int
  den : Int
  ret : Option Int
deriving DecidableEq

/-- The C function
```
static inline int muldivRational(int64_t *num, int64_t *den, int64_t mul, int64_t div) {
    *num *= mul;
    *den *= div;
}
```
The arguments `num` and `den` are the values of `*num` and `*den` on entry. -/
def muldivRational (num den mul div : Int) : MulDivResult :=
  let num1 := wrap64 (num * mul)
  let den1 := wrap64 (den * div)
  { num := num1, den := den1, ret := none }

/-- The C function
```
static inline int int64ToIntS(int64_t i) {
    if (i > INT_MAX) return INT_MAX;
    else if (i < INT_MIN) return INT_MIN;
    else return (int)i;
}
``` -/
def int64ToIntS (i : Int) : Int :=
  if i > INT_MAX then INT_MAX
  else if i < INT_MIN then INT_MIN
  else wrap32 i

/-- Neither product computed by `muldivRational` leaves the `int64_t` range. -/
def noOverflow (num den mul div : Int) : Prop :=
  isInt64 (num * mul) ∧ isInt64 (den * div)

instance (num den mul div : Int) : Decidable (noOverflow num den mul div) := by
  unfold noOverflow; exact inferInstance

/-- The call reported overflow: it returned a status, and the status is non-zero. -/
def reportsOverflow (r : MulDivResult) : Prop :=
  ∃ s, r.ret = some s ∧ s ≠ 0

/-- The call reported success: it returned the status zero. -/
def reportsSuccess (r : MulDivResult) : Prop :=
  r.ret = some 0

/-- Canonical form of a pair as the specification words it: strictly positive
denominator and numerator coprime to it (which for a zero numerator means the
pair `(0, 1)`). -/
def isCanonical (n d : Int) : Prop :=
  0 < d ∧ Int.gcd n d = 1

instance (n d : Int) : Decidable (isCanonical n d) := by
  unfold isCanonical; exact inferInstance

/-- Canonical form of `(num, den)` as the specification words it:
`(sgn(den) * num / g, |den| / g)` with `g = gcd(|num|, |den|)`. -/
def specCanonical (num den : Int) : Int × Int :=
  let g : Int := Int.gcd num den
  (Int.sign den * num / g, |den| / g)

/-- All four arguments of a call of `muldivRational` are `int64_t` values. -/
def int64Args (num den mul div : Int) : Prop :=
  isInt64 num ∧ isInt64 den ∧ isInt64 mul ∧ isInt64 div

instance (num den mul div : Int) : Decidable (int64Args num den mul div) := by
  unfold int64Args; exact inferInstance

/-- The input is one on which the sign normalisation of the specification would
negate the least 64-bit value, in the specification's words: `den * div` is
`INT64_MIN`, or `den * div < 0` and `num * mul` is `INT64_MIN`. -/
def specNegatesMin (num den mul div : Int) : Prop :=
  den * div = INT64_MIN ∨ (den * div < 0 ∧ num * mul = INT64_MIN)

instance (num den mul div : Int) : Decidable (specNegatesMin num den mul div) := by
  unfold specNegatesMin; exact inferInstance

/-- The call returned a status of some value.  The returned `int` is the only
output of `muldivRational` besides the two cells, so a condition of any kind
can be signalled to the caller only when this holds. -/
def returnsStatus (r : MulDivResult) : Prop :=
  ∃ s, r.ret = some s

/-- Modelled from the spec: the declaration of `VSVideoInfo` is in `VapourSynth.h`,
which is not among the sources.  A descriptor carries a `height`, a `width` (both
`int`) and a format identifier, here the pointer `format` as an address, whose
null value `0` stands for an unset or unknown format. -/
structure VSVideoInfo where
  format : Nat
  width : Int
  height : Int
deriving DecidableEq

/-- The C function
```
static inline int isConstantFormat(const VSVideoInfo *vi) {
    return vi->height > 0 && vi->width > 0 && vi->format;
}
``` -/
def isConstantFormat (vi : VSVideoInfo) : Int :=
  if vi.height > 0 ∧ vi.width > 0 ∧ vi.format ≠ 0 then 1 else 0

/-- The C function
```
static inline int isSameFormat(const VSVideoInfo *v1, const VSVideoInfo *v2) {
    return v1->height == v2->height && v1->width == v2->width && v1->format == v2->format;
}
``` -/
def isSameFormat (v1 v2 : VSVideoInfo) : Int :=
  if v1.height = v2.height ∧ v1.width = v2.width ∧ v1.format = v2.format then 1 else 0

/-! ## Auxiliary facts -/

theorem wrap64_of_isInt64 {x : Int} (h : isInt64 x) : wrap64 x = x := by
  unfold isInt64 INT64_MIN INT64_MAX at h
  unfold wrap64
  omega

theorem wrap64_isInt64 (x : Int) : isInt64 (wrap64 x) := by
  unfold isInt64 INT64_MIN INT64_MAX wrap64
  omega

theorem muldivRational_num (num den mul div : Int) :
    (muldivRational num den mul div).num = wrap64 (num * mul) := rfl

theorem muldivRational_den (num den mul div : Int) :
    (muldivRational num den mul div).den = wrap64 (den * div) := rfl

theorem muldivRational_ret (num den mul div : Int) :
    (muldivRational num den mul div).ret = none := rfl

theorem muldivRational_exact {num den mul div : Int}
    (h : noOverflow num den mul div) :
    muldivRational num den mul div = ⟨num * mul, den * div, none⟩ := by
  unfold muldivRational
  simp only [wrap64_of_isInt64 h.1, wrap64_of_isInt64 h.2]

theorem not_reportsOverflow (num den mul div : Int) :
    ¬ reportsOverflow (muldivRational num den mul div) := by
  rintro ⟨s, hs, -⟩
  rw [muldivRational_ret] at hs
  cases hs

theorem not_reportsSuccess (num den mul div : Int) :
    ¬ reportsSuccess (muldivRational num den mul div) := by
  intro hs
  unfold reportsSuccess at hs
  rw [muldivRational_ret] at hs
  cases hs

theorem wrap32_of_int {x : Int} (h1 : INT_MIN ≤ x) (h2 : x ≤ INT_MAX) : wrap32 x = x := by
  unfold INT_MIN at h1
  unfold INT_MAX at h2
  unfold wrap32
  omega

/-! ## C1 : canonical output -/

/-- C1, as stated, fails: on the non-overflowing input `(1, -2)` scaled by `(3, 1)`
(non-zero `den` and `div`) the pair left by `muldivRational` is `(3, -2)`, whose
denominator is not strictly positive, so the pair is not canonical. -/
theorem muldivRational_not_canonical :
    int64Args 1 (-2) 3 1 ∧ (-2 : Int) ≠ 0 ∧ (1 : Int) ≠ 0 ∧ noOverflow 1 (-2) 3 1 ∧
    muldivRational 1 (-2) 3 1 = ⟨3, -2, none⟩ ∧
    ¬ isCanonical (muldivRational 1 (-2) 3 1).num (muldivRational 1 (-2) 3 1).den := by
  decide

/-- C1, amended: for every input with `den ≠ 0`, `div ≠ 0` and both products inside
the signed 64-bit range, the denominator left by `muldivRational` is non-zero and
has the sign of `den * div`: it is strictly positive exactly when `den * div` is. -/
theorem muldivRational_den_nonzero_sign (num den mul div : Int)
    (_hin : int64Args num den mul div) (hd : den ≠ 0) (hv : div ≠ 0)
    (ho : noOverflow num den mul div) :
    (muldivRational num den mul div).den ≠ 0 ∧
    (0 < (muldivRational num den mul div).den ↔ 0 < den * div) := by
  rw [muldivRational_exact ho]
  exact ⟨mul_ne_zero hd hv, Iff.rfl⟩

theorem muldivRational_den_nonzero_sign_witness :
    (int64Args 1 (-2) 3 (-5) ∧ (-2 : Int) ≠ 0 ∧ (-5 : Int) ≠ 0 ∧ noOverflow 1 (-2) 3 (-5)) ∧
    ((muldivRational 1 (-2) 3 (-5)).den ≠ 0 ∧
      (0 < (muldivRational 1 (-2) 3 (-5)).den ↔ 0 < (-2 : Int) * (-5))) :=
  ⟨by decide,
    muldivRational_den_nonzero_sign 1 (-2) 3 (-5) (by decide) (by decide) (by decide) (by decide)⟩

/-! ## C2 : overflow is not reported -/

/-- C2, evaluated at its own example: scaling `(INT64_MAX, 1)` by `(2, 1)` makes the
product `num * mul` leave the signed 64-bit range, yet `muldivRational` returns no
status (so it does not report overflow) and leaves the wrapped pair `(-2, 1)`. -/
theorem muldivRational_overflow_not_reported :
    int64Args INT64_MAX 1 2 1 ∧ ¬ isInt64 (INT64_MAX * 2) ∧
    muldivRational INT64_MAX 1 2 1 = ⟨-2, 1, none⟩ ∧
    ¬ reportsOverflow (muldivRational INT64_MAX 1 2 1) :=
  ⟨by decide, by decide, by decide, not_reportsOverflow _ _ _ _⟩

/-! ## C3 : the pair left denotes the scaled rational -/

/-- C3: for every input with `den ≠ 0`, `div ≠ 0` and no overflow, the pair
`(n, d)` left by `muldivRational` satisfies `n * (den * div) = (num * mul) * d`
over the integers and `d ≠ 0`, i.e. it denotes the rational `(num*mul)/(den*div)`. -/
theorem muldivRational_same_rational (num den mul div : Int)
    (_hin : int64Args num den mul div) (hd : den ≠ 0) (hv : div ≠ 0)
    (ho : noOverflow num den mul div) :
    (muldivRational num den mul div).num * (den * div)
      = (num * mul) * (muldivRational num den mul div).den ∧
    (muldivRational num den mul div).den ≠ 0 := by
  rw [muldivRational_exact ho]
  exact ⟨rfl, mul_ne_zero hd hv⟩

theorem muldivRational_same_rational_witness :
    (int64Args 6 (-4) 10 15 ∧ (-4 : Int) ≠ 0 ∧ (15 : Int) ≠ 0 ∧ noOverflow 6 (-4) 10 15) ∧
    ((muldivRational 6 (-4) 10 15).num * ((-4) * 15)
      = (6 * 10) * (muldivRational 6 (-4) 10 15).den ∧
    (muldivRational 6 (-4) 10 15).den ≠ 0) :=
  ⟨by decide,
    muldivRational_same_rational 6 (-4) 10 15 (by decide) (by decide) (by decide) (by decide)⟩

/-! ## C5 : sign of the denominator -/

/-- C5, as stated, fails at its own example: `(3, -4)` scaled by `(1, 1)` does not
overflow and has `den * div < 0`, yet `muldivRational` leaves `(3, -4)`: the
denominator is not positive and the pair is not `(-3, 4)`. -/
theorem muldivRational_sign_not_moved :
    int64Args 3 (-4) 1 1 ∧ noOverflow 3 (-4) 1 1 ∧ (-4 : Int) * 1 < 0 ∧
    muldivRational 3 (-4) 1 1 = ⟨3, -4, none⟩ ∧
    ¬ (0 < (muldivRational 3 (-4) 1 1).den) ∧
    ((muldivRational 3 (-4) 1 1).num, (muldivRational 3 (-4) 1 1).den) ≠ (-3, 4) := by
  decide

/-- C5, amended: for every non-overflowing input with `den ≠ 0`, `div ≠ 0` and
`den * div < 0`, `muldivRational` leaves a negative denominator and a numerator
with the same sign as `num * mul`: the sign is not moved to the numerator. -/
theorem muldivRational_negative_den_kept (num den mul div : Int)
    (_hin : int64Args num den mul div) (_hd : den ≠ 0) (_hv : div ≠ 0)
    (ho : noOverflow num den mul div) (hneg : den * div < 0) :
    (muldivRational num den mul div).den < 0 ∧
    Int.sign (muldivRational num den mul div).num = Int.sign (num * mul) := by
  rw [muldivRational_exact ho]
  exact ⟨hneg, rfl⟩

theorem muldivRational_negative_den_kept_witness :
    (int64Args 3 (-4) 1 1 ∧ (-4 : Int) ≠ 0 ∧ (1 : Int) ≠ 0 ∧ noOverflow 3 (-4) 1 1 ∧
      (-4 : Int) * 1 < 0) ∧
    ((muldivRational 3 (-4) 1 1).den < 0 ∧
      Int.sign (muldivRational 3 (-4) 1 1).num = Int.sign (3 * 1)) :=
  ⟨by decide,
    muldivRational_negative_den_kept 3 (-4) 1 1 (by decide) (by decide) (by decide) (by decide)
      (by decide)⟩

/-! ## C6 : zero numerator -/

/-- C6, evaluated at its own example: `(0, 5)` scaled by `(7, 1)` does not overflow
and has `num * mul = 0`, and `muldivRational` leaves `(0, 5)`, not the reduced
pair `(0, 1)`. -/
theorem muldivRational_zero_not_reduced :
    int64Args 0 5 7 1 ∧ noOverflow 0 5 7 1 ∧ (0 : Int) * 7 = 0 ∧
    muldivRational 0 5 7 1 = ⟨0, 5, none⟩ ∧
    ((muldivRational 0 5 7 1).num, (muldivRational 0 5 7 1).den) ≠ (0, 1) := by
  decide

/-! ## C7 : coprime products with a positive denominator -/

/-- C7: for every non-overflowing input with `den * div > 0` and
`gcd(|num * mul|, den * div) = 1`, `muldivRational` leaves exactly
`(num * mul, den * div)`. -/
theorem muldivRational_coprime_exact (num den mul div : Int)
    (_hin : int64Args num den mul div) (ho : noOverflow num den mul div)
    (_hpos : 0 < den * div) (_hgcd : Int.gcd (num * mul) (den * div) = 1) :
    (muldivRational num den mul div).num = num * mul ∧
    (muldivRational num den mul div).den = den * div := by
  rw [muldivRational_exact ho]
  exact ⟨rfl, rfl⟩

theorem muldivRational_coprime_exact_witness :
    ((int64Args 24000 1001 2 1 ∧ noOverflow 24000 1001 2 1 ∧ (0 : Int) < 1001 * 1 ∧
        Int.gcd (24000 * 2) (1001 * 1) = 1) ∧
      (muldivRational 24000 1001 2 1).num = 48000 ∧
      (muldivRational 24000 1001 2 1).den = 1001) ∧
    ((int64Args 1 2 1 2 ∧ noOverflow 1 2 1 2 ∧ (0 : Int) < 2 * 2 ∧
        Int.gcd (1 * 1) (2 * 2) = 1) ∧
      (muldivRational 1 2 1 2).num = 1 ∧
      (muldivRational 1 2 1 2).den = 4) :=
  ⟨⟨by decide,
      muldivRational_coprime_exact 24000 1001 2 1 (by decide) (by decide) (by decide)
        (by decide)⟩,
    ⟨by decide,
      muldivRational_coprime_exact 1 2 1 2 (by decide) (by decide) (by decide) (by decide)⟩⟩

/-! ## C8 : scale `(1, 1)` -/

/-- C8, as stated, fails: `(1, -1)` has the representable canonical form `(-1, 1)`,
but `muldivRational` with scale `(1, 1)` leaves `(1, -1)`. -/
theorem muldivRational_identity_not_canonical :
    int64Args 1 (-1) 1 1 ∧ (-1 : Int) ≠ 0 ∧ specCanonical 1 (-1) = (-1, 1) ∧
    muldivRational 1 (-1) 1 1 = ⟨1, -1, none⟩ ∧
    ((muldivRational 1 (-1) 1 1).num, (muldivRational 1 (-1) 1 1).den)
      ≠ specCanonical 1 (-1) := by
  decide

/-- C8, amended: for every rational `(num, den)` with `den ≠ 0`, `muldivRational`
with scale `(1, 1)` leaves a pair `(n, d)` that denotes the same rational
(`n * den = num * d`, `d ≠ 0`) and whose denominator has the sign of `den`. -/
theorem muldivRational_identity_same_rational (num den : Int)
    (hnum : isInt64 num) (hden : isInt64 den) (hd : den ≠ 0) :
    (muldivRational num den 1 1).num * den = num * (muldivRational num den 1 1).den ∧
    (muldivRational num den 1 1).den ≠ 0 ∧
    (0 < (muldivRational num den 1 1).den ↔ 0 < den) := by
  have ho : noOverflow num den 1 1 := by
    unfold noOverflow
    rw [mul_one, mul_one]
    exact ⟨hnum, hden⟩
  rw [muldivRational_exact ho, mul_one, mul_one]
  exact ⟨rfl, hd, Iff.rfl⟩

theorem muldivRational_identity_same_rational_witness :
    (isInt64 6 ∧ isInt64 (-9) ∧ (-9 : Int) ≠ 0) ∧
    ((muldivRational 6 (-9) 1 1).num * (-9) = 6 * (muldivRational 6 (-9) 1 1).den ∧
      (muldivRational 6 (-9) 1 1).den ≠ 0 ∧
      (0 < (muldivRational 6 (-9) 1 1).den ↔ (0 : Int) < -9)) :=
  ⟨by decide, muldivRational_identity_same_rational 6 (-9) (by decide) (by decide) (by decide)⟩

/-! ## C9 : scale `(1, 1)` on a reduced rational -/

/-- C9, evaluated at the reduced rational `(1, 2)` with scale `(1, 1)`:
`muldivRational` leaves the pair `(1, 2)` as claimed, but it returns no status,
so success (a zero return value) is not reported. -/
theorem muldivRational_reduced_no_status :
    int64Args 1 2 1 1 ∧ isCanonical 1 2 ∧
    muldivRational 1 2 1 1 = ⟨1, 2, none⟩ ∧
    ¬ reportsSuccess (muldivRational 1 2 1 1) :=
  ⟨by decide, by decide, by decide, not_reportsSuccess _ _ _ _⟩

/-! ## C10 : saturating narrowing -/

/-- C10: for every 64-bit signed integer `i`, `int64ToIntS i` equals
`min (max i INT_MIN) INT_MAX`: it is `INT_MAX` above the 32-bit maximum,
`INT_MIN` below the 32-bit minimum, and `i` itself in between. -/
theorem int64ToIntS_clamp (i : Int) (_hi : isInt64 i) :
    int64ToIntS i = min (max i INT_MIN) INT_MAX ∧
    (INT_MAX < i → int64ToIntS i = INT_MAX) ∧
    (i < INT_MIN → int64ToIntS i = INT_MIN) ∧
    (INT_MIN ≤ i → i ≤ INT_MAX → int64ToIntS i = i) := by
  have hmm : INT_MIN ≤ INT_MAX := by decide
  unfold int64ToIntS
  by_cases h1 : i > INT_MAX
  · rw [if_pos h1]
    refine ⟨?_, fun _ => rfl, fun h => ?_, fun _ h => ?_⟩
    · rw [min_eq_right]
      exact le_max_of_le_left (le_of_lt h1)
    · exact absurd (lt_of_lt_of_le h hmm) (not_lt.mpr (le_of_lt h1))
    · exact absurd h (not_le.mpr h1)
  · rw [if_neg h1]
    have h1le : i ≤ INT_MAX := not_lt.mp h1
    by_cases h2 : i < INT_MIN
    · rw [if_pos h2]
      refine ⟨?_, fun h => absurd h h1, fun _ => rfl, fun h => absurd h (not_le.mpr h2)⟩
      rw [max_eq_right (le_of_lt h2), min_eq_left hmm]
    · rw [if_neg h2]
      have h2le : INT_MIN ≤ i := not_lt.mp h2
      rw [wrap32_of_int h2le h1le]
      refine ⟨?_, fun h => absurd h h1, fun h => absurd h h2, fun _ _ => rfl⟩
      rw [max_eq_left h2le, min_eq_left h1le]

theorem int64ToIntS_clamp_witness :
    (isInt64 (INT_MAX + 1) ∧ int64ToIntS (INT_MAX + 1) = INT_MAX) ∧
    (isInt64 (INT_MIN - 1) ∧ int64ToIntS (INT_MIN - 1) = INT_MIN) ∧
    (isInt64 42 ∧ int64ToIntS 42 = 42) :=
  ⟨⟨by decide, (int64ToIntS_clamp (INT_MAX + 1) (by decide)).2.1 (by decide)⟩,
    ⟨by decide, (int64ToIntS_clamp (INT_MIN - 1) (by decide)).2.2.1 (by decide)⟩,
    ⟨by decide, (int64ToIntS_clamp 42 (by decide)).2.2.2 (by decide) (by decide)⟩⟩

/-! ## Auxiliary facts on the format predicates and the narrowing -/

theorem isConstantFormat_ne_zero_iff (vi : VSVideoInfo) :
    isConstantFormat vi ≠ 0 ↔ 0 < vi.height ∧ 0 < vi.width ∧ vi.format ≠ 0 := by
  unfold isConstantFormat
  by_cases h : vi.height > 0 ∧ vi.width > 0 ∧ vi.format ≠ 0
  · rw [if_pos h]
    exact ⟨fun _ => h, fun _ => one_ne_zero⟩
  · rw [if_neg h]
    exact ⟨fun h0 => absurd rfl h0, fun hc => absurd hc h⟩

theorem isSameFormat_ne_zero_iff (v1 v2 : VSVideoInfo) :
    isSameFormat v1 v2 ≠ 0 ↔
      v1.height = v2.height ∧ v1.width = v2.width ∧ v1.format = v2.format := by
  unfold isSameFormat
  by_cases h : v1.height = v2.height ∧ v1.width = v2.width ∧ v1.format = v2.format
  · rw [if_pos h]
    exact ⟨fun _ => h, fun _ => one_ne_zero⟩
  · rw [if_neg h]
    exact ⟨fun h0 => absurd rfl h0, fun hc => absurd hc h⟩

theorem int64ToIntS_eq_clamp (i : Int) :
    int64ToIntS i = min (max i (-2147483648)) 2147483647 := by
  unfold int64ToIntS INT_MAX INT_MIN wrap32
  split_ifs <;> omega

theorem not_returnsStatus (num den mul div : Int) :
    ¬ returnsStatus (muldivRational num den mul div) := by
  rintro ⟨s, hs⟩
  rw [muldivRational_ret] at hs
  cases hs

theorem wrap64_zero : wrap64 0 = 0 := by decide

/-! ## C11 : format constancy -/

/-- C11: for every descriptor `vi`, `isConstantFormat vi` is true (non-zero) if and
only if `vi.height > 0`, `vi.width > 0` and `vi.format` is non-null; consequently
a descriptor with `width == 0` is never constant format. -/
theorem isConstantFormat_iff (vi : VSVideoInfo) :
    (isConstantFormat vi ≠ 0 ↔ 0 < vi.height ∧ 0 < vi.width ∧ vi.format ≠ 0) ∧
    (vi.width = 0 → isConstantFormat vi = 0) := by
  refine ⟨isConstantFormat_ne_zero_iff vi, fun hw => ?_⟩
  by_contra hne
  have hpos := ((isConstantFormat_ne_zero_iff vi).mp hne).2.1
  rw [hw] at hpos
  exact lt_irrefl 0 hpos

theorem isConstantFormat_iff_witness :
    ((⟨7, 0, 480⟩ : VSVideoInfo).width = 0 ∧ isConstantFormat ⟨7, 0, 480⟩ = 0) ∧
    (isConstantFormat ⟨7, 640, 480⟩ ≠ 0) :=
  ⟨⟨rfl, (isConstantFormat_iff ⟨7, 0, 480⟩).2 rfl⟩,
    (isConstantFormat_iff ⟨7, 640, 480⟩).1.mpr (by decide)⟩

/-! ## C12 : format equality -/

/-- C12: for every pair of descriptors, `isSameFormat v1 v2` is true (non-zero) if
and only if the heights are equal, the widths are equal and the format
identifiers are equal; two unset (null) identifiers are equal, so descriptors
with equal height and width and both formats unknown compare equal. -/
theorem isSameFormat_iff (v1 v2 : VSVideoInfo) :
    (isSameFormat v1 v2 ≠ 0 ↔
      v1.height = v2.height ∧ v1.width = v2.width ∧ v1.format = v2.format) ∧
    (v1.height = v2.height → v1.width = v2.width → v1.format = 0 → v2.format = 0 →
      isSameFormat v1 v2 ≠ 0) := by
  refine ⟨isSameFormat_ne_zero_iff v1 v2, fun hh hw h1 h2 => ?_⟩
  exact (isSameFormat_ne_zero_iff v1 v2).mpr ⟨hh, hw, h1.trans h2.symm⟩

theorem isSameFormat_iff_witness :
    (((⟨0, 640, 480⟩ : VSVideoInfo).height = (⟨0, 640, 480⟩ : VSVideoInfo).height ∧
      (⟨0, 640, 480⟩ : VSVideoInfo).format = 0) ∧
      isSameFormat ⟨0, 640, 480⟩ ⟨0, 640, 480⟩ ≠ 0) ∧
    isSameFormat ⟨7, 640, 480⟩ ⟨7, 640, 480⟩ ≠ 0 ∧
    ¬ (isSameFormat ⟨7, 640, 480⟩ ⟨0, 640, 480⟩ ≠ 0) :=
  ⟨⟨⟨rfl, rfl⟩, (isSameFormat_iff ⟨0, 640, 480⟩ ⟨0, 640, 480⟩).2 rfl rfl rfl rfl⟩,
    (isSameFormat_iff ⟨7, 640, 480⟩ ⟨7, 640, 480⟩).1.mpr (by decide),
    fun h => absurd ((isSameFormat_iff ⟨7, 640, 480⟩ ⟨0, 640, 480⟩).1.mp h) (by decide)⟩

/-! ## C13 : zero denominator or zero divisor -/

/-- C13, as stated, fails: on `(1, 0)` scaled by `(1, 1)`, an input with `den == 0`,
`muldivRational` returns no status, so no invalid-input condition is signalled;
the call just leaves `(1, 0)`. -/
theorem muldivRational_zero_den_not_signalled :
    int64Args 1 0 1 1 ∧ ((0 : Int) = 0 ∨ (1 : Int) = 0) ∧
    muldivRational 1 0 1 1 = ⟨1, 0, none⟩ ∧
    ¬ returnsStatus (muldivRational 1 0 1 1) :=
  ⟨by decide, by decide, by decide, not_returnsStatus _ _ _ _⟩

/-- C13, amended: for every input with `den == 0` or `div == 0`, `muldivRational`
does not detect the zero: the denominator is multiplied like any other and
`*den` is left equal to `0`. -/
theorem muldivRational_zero_den_kept (num den mul div : Int)
    (_hin : int64Args num den mul div) (hz : den = 0 ∨ div = 0) :
    (muldivRational num den mul div).den = 0 := by
  have hprod : den * div = 0 := mul_eq_zero.mpr hz
  rw [muldivRational_den, hprod, wrap64_zero]

theorem muldivRational_zero_den_kept_witness :
    (int64Args 24000 1001 2 0 ∧ ((1001 : Int) = 0 ∨ (0 : Int) = 0)) ∧
    (muldivRational 24000 1001 2 0).den = 0 :=
  ⟨by decide, muldivRational_zero_den_kept 24000 1001 2 0 (by decide) (by decide)⟩

/-! ## C14 : inputs on which a sign normalisation would negate `INT64_MIN` -/

/-- C14, as stated, fails at its own example: `(1, INT64_MIN)` scaled by `(1, 1)`
has products that fit in 64 bits and `den * div == INT64_MIN`, yet
`muldivRational` does not report overflow; it leaves `(1, INT64_MIN)`. -/
theorem muldivRational_min_den_not_failed :
    int64Args 1 INT64_MIN 1 1 ∧ noOverflow 1 INT64_MIN 1 1 ∧
    specNegatesMin 1 INT64_MIN 1 1 ∧
    muldivRational 1 INT64_MIN 1 1 = ⟨1, INT64_MIN, none⟩ ∧
    ¬ reportsOverflow (muldivRational 1 INT64_MIN 1 1) :=
  ⟨by decide, by decide, by decide, by decide, not_reportsOverflow _ _ _ _⟩

/-- C14, amended: for every input whose products fit in 64 bits and for which
`den * div == INT64_MIN`, or `den * div < 0` and `num * mul == INT64_MIN`,
`muldivRational` negates nothing and does not report overflow: it leaves a
negative denominator and a pair denoting `(num * mul) / (den * div)`. -/
theorem muldivRational_min_kept (num den mul div : Int)
    (_hin : int64Args num den mul div) (ho : noOverflow num den mul div)
    (hmin : specNegatesMin num den mul div) :
    ¬ reportsOverflow (muldivRational num den mul div) ∧
    (muldivRational num den mul div).den < 0 ∧
    (muldivRational num den mul div).num * (den * div)
      = (num * mul) * (muldivRational num den mul div).den := by
  refine ⟨not_reportsOverflow _ _ _ _, ?_⟩
  rw [muldivRational_exact ho]
  refine ⟨?_, rfl⟩
  rcases hmin with h | h
  · show den * div < 0
    rw [h]
    decide
  · exact h.1

theorem muldivRational_min_kept_witness :
    (int64Args INT64_MIN (-3) 1 5 ∧ noOverflow INT64_MIN (-3) 1 5 ∧
      specNegatesMin INT64_MIN (-3) 1 5) ∧
    (¬ reportsOverflow (muldivRational INT64_MIN (-3) 1 5) ∧
      (muldivRational INT64_MIN (-3) 1 5).den < 0 ∧
      (muldivRational INT64_MIN (-3) 1 5).num * ((-3) * 5)
        = (INT64_MIN * 1) * (muldivRational INT64_MIN (-3) 1 5).den) :=
  ⟨by decide,
    muldivRational_min_kept INT64_MIN (-3) 1 5 (by decide) (by decide) (by decide)⟩

/-! ## C15 : success is not reported -/

/-- C15, evaluated at `(3, 4)` scaled by `(5, 7)`: `den` and `div` are non-zero, both
products fit in 64 bits and no negation of `INT64_MIN` is involved, and
`muldivRational` leaves `(15, 28)` but returns no status, so it does not return
zero; it does not report overflow either. -/
theorem muldivRational_no_success_status :
    int64Args 3 4 5 7 ∧ (4 : Int) ≠ 0 ∧ (7 : Int) ≠ 0 ∧ noOverflow 3 4 5 7 ∧
    ¬ specNegatesMin 3 4 5 7 ∧
    muldivRational 3 4 5 7 = ⟨15, 28, none⟩ ∧
    ¬ reportsSuccess (muldivRational 3 4 5 7) ∧
    ¬ reportsOverflow (muldivRational 3 4 5 7) :=
  ⟨by decide, by decide, by decide, by decide, by decide, by decide,
    not_reportsSuccess _ _ _ _, not_reportsOverflow _ _ _ _⟩

/-! ## C16 : two scalings in sequence -/

/-- C16: for every rational `(num, den)` and scales `(m1, d1)`, `(m2, d2)` such that
none of `num*m1`, `num*m1*m2`, `den*d1`, `den*d1*d2`, `m1*m2`, `d1*d2` overflows,
applying `muldivRational` with `(m1, d1)` and then with `(m2, d2)` leaves the
same `(*num, *den)` as applying it once with `(m1*m2, d1*d2)`. -/
theorem muldivRational_compose (num den m1 d1 m2 d2 : Int)
    (_hin1 : int64Args num den m1 d1) (_hin2 : isInt64 m2 ∧ isInt64 d2)
    (hn1 : isInt64 (num * m1)) (hn2 : isInt64 (num * m1 * m2))
    (hd1 : isInt64 (den * d1)) (hd2 : isInt64 (den * d1 * d2))
    (_hm : isInt64 (m1 * m2)) (_hd : isInt64 (d1 * d2)) :
    (muldivRational (muldivRational num den m1 d1).num (muldivRational num den m1 d1).den
        m2 d2).num
      = (muldivRational num den (m1 * m2) (d1 * d2)).num ∧
    (muldivRational (muldivRational num den m1 d1).num (muldivRational num den m1 d1).den
        m2 d2).den
      = (muldivRational num den (m1 * m2) (d1 * d2)).den := by
  have h1 : noOverflow num den m1 d1 := ⟨hn1, hd1⟩
  have h2 : noOverflow (num * m1) (den * d1) m2 d2 := ⟨hn2, hd2⟩
  have h3 : noOverflow num den (m1 * m2) (d1 * d2) := by
    unfold noOverflow
    rw [← mul_assoc, ← mul_assoc]
    exact ⟨hn2, hd2⟩
  rw [muldivRational_exact h1]
  show (muldivRational (num * m1) (den * d1) m2 d2).num = _ ∧
    (muldivRational (num * m1) (den * d1) m2 d2).den = _
  rw [muldivRational_exact h2, muldivRational_exact h3]
  exact ⟨mul_assoc num m1 m2, mul_assoc den d1 d2⟩

theorem muldivRational_compose_witness :
    (int64Args 24000 1001 2 3 ∧ (isInt64 5 ∧ isInt64 (-7)) ∧
      isInt64 (24000 * 2) ∧ isInt64 (24000 * 2 * 5) ∧
      isInt64 (1001 * 3) ∧ isInt64 (1001 * 3 * (-7)) ∧
      isInt64 (2 * 5) ∧ isInt64 (3 * (-7))) ∧
    ((muldivRational (muldivRational 24000 1001 2 3).num (muldivRational 24000 1001 2 3).den
        5 (-7)).num
      = (muldivRational 24000 1001 (2 * 5) (3 * (-7))).num ∧
    (muldivRational (muldivRational 24000 1001 2 3).num (muldivRational 24000 1001 2 3).den
        5 (-7)).den
      = (muldivRational 24000 1001 (2 * 5) (3 * (-7))).den) :=
  ⟨by decide,
    muldivRational_compose 24000 1001 2 3 5 (-7) (by decide) (by decide) (by decide)
      (by decide) (by decide) (by decide) (by decide) (by decide)⟩

/-! ## C17 : format equality is an equivalence relation -/

/-- C17: `isSameFormat` is an equivalence relation on descriptors: `isSameFormat v v`
holds for every `v` (also with an unset format), `isSameFormat v1 v2` implies
`isSameFormat v2 v1`, and `isSameFormat v1 v2` with `isSameFormat v2 v3` implies
`isSameFormat v1 v3`. -/
theorem isSameFormat_equivalence :
    (∀ v : VSVideoInfo, isSameFormat v v ≠ 0) ∧
    (∀ v1 v2 : VSVideoInfo, isSameFormat v1 v2 ≠ 0 → isSameFormat v2 v1 ≠ 0) ∧
    (∀ v1 v2 v3 : VSVideoInfo, isSameFormat v1 v2 ≠ 0 → isSameFormat v2 v3 ≠ 0 →
      isSameFormat v1 v3 ≠ 0) := by
  refine ⟨fun v => ?_, fun v1 v2 h => ?_, fun v1 v2 v3 h12 h23 => ?_⟩
  · exact (isSameFormat_ne_zero_iff v v).mpr ⟨rfl, rfl, rfl⟩
  · obtain ⟨hh, hw, hf⟩ := (isSameFormat_ne_zero_iff v1 v2).mp h
    exact (isSameFormat_ne_zero_iff v2 v1).mpr ⟨hh.symm, hw.symm, hf.symm⟩
  · obtain ⟨hh, hw, hf⟩ := (isSameFormat_ne_zero_iff v1 v2).mp h12
    obtain ⟨hh2, hw2, hf2⟩ := (isSameFormat_ne_zero_iff v2 v3).mp h23
    exact (isSameFormat_ne_zero_iff v1 v3).mpr ⟨hh.trans hh2, hw.trans hw2, hf.trans hf2⟩

theorem isSameFormat_equivalence_witness :
    isSameFormat ⟨0, 0, 0⟩ ⟨0, 0, 0⟩ ≠ 0 ∧
    (isSameFormat ⟨7, 640, 480⟩ ⟨7, 640, 480⟩ ≠ 0 ∧
      isSameFormat ⟨7, 640, 480⟩ ⟨7, 640, 480⟩ ≠ 0) ∧
    (isSameFormat ⟨0, 1920, 1080⟩ ⟨0, 1920, 1080⟩ ≠ 0 ∧
      isSameFormat ⟨0, 1920, 1080⟩ ⟨0, 1920, 1080⟩ ≠ 0) :=
  ⟨isSameFormat_equivalence.1 ⟨0, 0, 0⟩,
    ⟨by decide, isSameFormat_equivalence.2.1 ⟨7, 640, 480⟩ ⟨7, 640, 480⟩ (by decide)⟩,
    ⟨by decide,
      isSameFormat_equivalence.2.2 ⟨0, 1920, 1080⟩ ⟨0, 1920, 1080⟩ ⟨0, 1920, 1080⟩
        (by decide) (by decide)⟩⟩

/-! ## C18 : format equality preserves format constancy -/

/-- C18: for every pair of descriptors with `isSameFormat v1 v2` true,
`isConstantFormat v1` is true if and only if `isConstantFormat v2` is true. -/
theorem isConstantFormat_of_isSameFormat (v1 v2 : VSVideoInfo)
    (h : isSameFormat v1 v2 ≠ 0) :
    isConstantFormat v1 ≠ 0 ↔ isConstantFormat v2 ≠ 0 := by
  obtain ⟨hh, hw, hf⟩ := (isSameFormat_ne_zero_iff v1 v2).mp h
  rw [isConstantFormat_ne_zero_iff, isConstantFormat_ne_zero_iff, hh, hw, hf]

theorem isConstantFormat_of_isSameFormat_witness :
    (isSameFormat ⟨7, 640, 480⟩ ⟨7, 640, 480⟩ ≠ 0 ∧
      (isConstantFormat ⟨7, 640, 480⟩ ≠ 0 ↔ isConstantFormat ⟨7, 640, 480⟩ ≠ 0)) ∧
    (isSameFormat ⟨0, 640, 480⟩ ⟨0, 640, 480⟩ ≠ 0 ∧
      (isConstantFormat ⟨0, 640, 480⟩ ≠ 0 ↔ isConstantFormat ⟨0, 640, 480⟩ ≠ 0)) :=
  ⟨⟨by decide, isConstantFormat_of_isSameFormat ⟨7, 640, 480⟩ ⟨7, 640, 480⟩ (by decide)⟩,
    ⟨by decide, isConstantFormat_of_isSameFormat ⟨0, 640, 480⟩ ⟨0, 640, 480⟩ (by decide)⟩⟩

/-! ## C19 : the narrowing is monotone, bounded and idempotent -/

/-- C19: for all 64-bit `i ≤ j`, `int64ToIntS i ≤ int64ToIntS j`; the result always
lies in `[INT_MIN, INT_MAX]`; and `int64ToIntS (int64ToIntS i) = int64ToIntS i`. -/
theorem int64ToIntS_monotone_idempotent (i j : Int)
    (_hi : isInt64 i) (_hj : isInt64 j) (hij : i ≤ j) :
    int64ToIntS i ≤ int64ToIntS j ∧
    (INT_MIN ≤ int64ToIntS i ∧ int64ToIntS i ≤ INT_MAX) ∧
    int64ToIntS (int64ToIntS i) = int64ToIntS i := by
  have hi := int64ToIntS_eq_clamp i
  have hj := int64ToIntS_eq_clamp j
  have hii := int64ToIntS_eq_clamp (int64ToIntS i)
  unfold INT_MIN INT_MAX
  omega

theorem int64ToIntS_monotone_idempotent_witness :
    (isInt64 (-5000000000) ∧ isInt64 5000000000 ∧ (-5000000000 : Int) ≤ 5000000000) ∧
    (int64ToIntS (-5000000000) ≤ int64ToIntS 5000000000 ∧
      (INT_MIN ≤ int64ToIntS (-5000000000) ∧ int64ToIntS (-5000000000) ≤ INT_MAX) ∧
      int64ToIntS (int64ToIntS (-5000000000)) = int64ToIntS (-5000000000)) :=
  ⟨by decide,
    int64ToIntS_monotone_idempotent (-5000000000) 5000000000 (by decide) (by decide)
      (by decide)⟩

end VSHelper
